import Mathlib

/-!
Shallow embedding of `src/app.py` (urayaba-ai-bot): the role-scoped PDF
ingestion pass `load_and_upload_pdfs_by_role`, the readiness polling loop for
uploaded files, and the `/chat` handler (history rendering, request assembly,
result interpretation).  External services (the document store, the generation
service, the spreadsheet log) are modelled as explicit environment data; each
external call that may raise an exception is an `ExcOr` value.  Every mutation
of the module-level globals `UPLOADED_FILES_CACHE` and `FILE_LIST_DATA` is
recorded in a trace of published states, so that what a concurrent reader of
those globals can observe is explicit.
-/

/-- Readiness state of a file uploaded to the generation service
(`uploaded_file.state.name` in the source: PROCESSING, ACTIVE or FAILED). -/
inductive FileState where
  | PROCESSING
  | ACTIVE
  | FAILED
  deriving DecidableEq, Repr

/-- Outcome of a call into an external service: either it raised an exception
(`exc`) or it returned a value (`ok`). -/
inductive ExcOr (α : Type) where
  | exc : ExcOr α
  | ok : α → ExcOr α
  deriving DecidableEq, Repr

/-- Handle returned by `genai.upload_file` / `genai.get_file`. -/
structure UFile where
  name : String
  display_name : String
  deriving DecidableEq, Repr

/-- One document store entry as returned by `service.files().list` with fields
`id, name, webViewLink`; `webViewLink` may be absent. -/
structure Item where
  id : String
  name : String
  webViewLink : Option String
  deriving DecidableEq, Repr

/-- One entry of the display list `FILE_LIST_DATA`. -/
structure DisplayEntry where
  name : String
  url : String
  deriving DecidableEq, Repr

/-- Per-document environment: whether the download raises, the outcome of
`genai.upload_file`, and the readiness state with which the polling loop
exits.  The unbounded polling loop itself is modelled separately by
`pollExit`; a terminating run of it yields the first non-PROCESSING state,
which is what `finalState` stands for. -/
structure ItemEnv where
  downloadOk : Bool
  upload : ExcOr UFile
  finalState : FileState
  deriving DecidableEq, Repr

/-- Per-role environment: result of the folder query (the ids of folders whose
name equals the role), result of the PDF listing inside the first matching
folder, and the per-item environments (positional). -/
structure RoleEnv where
  folderList : ExcOr (List String)
  fileList : ExcOr (List Item)
  itemEnvs : List ItemEnv
  deriving DecidableEq, Repr

/-- Whole-sync environment: whether `get_credentials` finds credentials, and
one `RoleEnv` per configured role (positional, matching `target_roles`). -/
structure SyncEnv where
  credsOk : Bool
  roleEnvs : List RoleEnv
  deriving DecidableEq, Repr

/-- Default per-item environment used for positions the environment does not
mention. -/
def defaultItemEnv : ItemEnv := ⟨true, .ok ⟨"files/none", ""⟩, .ACTIVE⟩

/-- Default per-role environment: the folder query succeeds and finds no
folder, so the role is skipped. -/
def defaultRoleEnv : RoleEnv := ⟨.ok [], .ok [], []⟩

/-- The mutable global state of the module: the two published globals
`UPLOADED_FILES_CACHE` (a Python dict, modelled as an insertion-ordered
association list) and `FILE_LIST_DATA`, plus the set of staging files
currently on disk (files created by `tempfile.NamedTemporaryFile` with
`delete=False` and not yet removed by `os.remove`). -/
structure GState where
  UPLOADED_FILES_CACHE : List (String × List UFile)
  FILE_LIST_DATA : List DisplayEntry
  tempFiles : List String
  deriving DecidableEq, Repr

/-- Python `d.get(k, [])` on the cache dict: the bound value, or `[]` for an
unknown key. -/
def dictGet (d : List (String × List UFile)) (k : String) : List UFile :=
  match d with
  | [] => []
  | (k', v) :: rest => if k' = k then v else dictGet rest k

/-- Python `d[k] = v` on the cache dict: replace the binding in place, keeping
insertion order, or append a new binding. -/
def dictSet (d : List (String × List UFile)) (k : String) (v : List UFile) :
    List (String × List UFile) :=
  match d with
  | [] => [(k, v)]
  | (k', v') :: rest => if k' = k then (k, v) :: rest else (k', v') :: dictSet rest k v

/-- The configured role list, in declaration order (`target_roles`). -/
def target_roles : List String := ["在学生", "受験生", "保護者"]

/-- The value assigned to `UPLOADED_FILES_CACHE` by the reset at the top of
`load_and_upload_pdfs_by_role` (line 74 of `src/app.py`). -/
def resetCache : List (String × List UFile) :=
  [("在学生", []), ("受験生", []), ("保護者", [])]

/-- Fuel-indexed run of the readiness polling loop
(`while uploaded_file.state.name == "PROCESSING": time.sleep(1); get_file`).
`states n` is the handle state observed by the n-th fetch (index 0 being the
state returned by `upload_file` itself).  The loop in the source has no
attempt ceiling; `pollExit states fuel i = some m` means the loop, currently
looking at index `i`, exits after observing index `m`, and `none` means it has
not exited within `fuel` observations. -/
def pollExit (states : Nat → FileState) : Nat → Nat → Option Nat
  | 0, _ => none
  | fuel + 1, i =>
    if states i ≠ .PROCESSING then some i else pollExit states fuel (i + 1)

/-- Proposition: the polling loop never exits on the state stream `states`,
however much fuel it is given. -/
def pollLoopsForever (states : Nat → FileState) : Prop :=
  ∀ fuel, pollExit states fuel 0 = none

/-- Result of processing one store item (one iteration of the inner
`for item in items` loop): the global state after the iteration, the published
states recorded during it (one entry after each mutation), whether an uncaught
exception aborted the whole sync — only the download can do this, since it
sits outside the per-item `try` — and the handle appended to `role_files`
when the upload ended `ACTIVE`. -/
structure ItemResult where
  st : GState
  tr : List GState
  aborted : Bool
  handle : Option UFile
  deriving DecidableEq, Repr

/-- One iteration of the per-item loop in `load_and_upload_pdfs_by_role`
(lines 107–145 of `src/app.py`): append the display entry to
`FILE_LIST_DATA`, create the staging file, download — an exception here
propagates out of the item loop, leaving the staging file on disk — then
`try` the upload and poll, `finally` remove the staging file. -/
def process_item (role : String) (tmpName : String) (item : Item) (ienv : ItemEnv)
    (st : GState) : ItemResult :=
  let entry : DisplayEntry :=
    ⟨"【" ++ role ++ "】" ++ item.name, item.webViewLink.getD "#"⟩
  let st1 : GState := { st with FILE_LIST_DATA := st.FILE_LIST_DATA ++ [entry] }
  let st2 : GState := { st1 with tempFiles := st1.tempFiles ++ [tmpName] }
  if ienv.downloadOk then
    let handle : Option UFile :=
      match ienv.upload with
      | .exc => none
      | .ok uf => if ienv.finalState = .ACTIVE then some uf else none
    let st3 : GState := { st2 with tempFiles := st2.tempFiles.filter (· != tmpName) }
    ⟨st3, [st1, st2, st3], false, handle⟩
  else
    ⟨st2, [st1, st2], true, none⟩

/-- Aggregate result of the per-item loop over one role's items. -/
structure ItemsResult where
  st : GState
  tr : List GState
  aborted : Bool
  role_files : List UFile
  ctr : Nat
  deriving DecidableEq, Repr

/-- The inner `for item in items` loop: items are processed in listing order,
each with its positional `ItemEnv`; an aborting download exception stops the
loop (and the whole sync).  `ctr` numbers staging files (`tmp0`, `tmp1`, …
across the pass, standing for the fresh names the OS hands out). -/
def process_items (role : String) (ienvs : List ItemEnv) :
    List Item → Nat → Nat → GState → List UFile → ItemsResult
  | [], _, ctr, st, acc => ⟨st, [], false, acc, ctr⟩
  | item :: rest, i, ctr, st, acc =>
    let r := process_item role ("tmp" ++ toString ctr) item (ienvs.getD i defaultItemEnv) st
    if r.aborted then ⟨r.st, r.tr, true, acc, ctr + 1⟩
    else
      let k := process_items role ienvs rest (i + 1) (ctr + 1) r.st (acc ++ r.handle.toList)
      ⟨k.st, r.tr ++ k.tr, k.aborted, k.role_files, k.ctr⟩

/-- Aggregate result of processing one role. -/
structure RoleResult where
  st : GState
  tr : List GState
  aborted : Bool
  ctr : Nat
  deriving DecidableEq, Repr

/-- One iteration of the `for role in target_roles` loop (lines 81–148):
resolve the role folder (none found means `continue`), list its PDFs (none
means `continue`), run the item loop, then publish
`UPLOADED_FILES_CACHE[role] = role_files`.  An exception from a listing call
or from a download aborts the whole sync; the cache assignment for the
current role is then skipped. -/
def process_role (role : String) (renv : RoleEnv) (ctr : Nat) (st : GState) : RoleResult :=
  match renv.folderList with
  | .exc => ⟨st, [], true, ctr⟩
  | .ok folders =>
    if folders.isEmpty then ⟨st, [], false, ctr⟩
    else
      match renv.fileList with
      | .exc => ⟨st, [], true, ctr⟩
      | .ok items =>
        if items.isEmpty then ⟨st, [], false, ctr⟩
        else
          let k := process_items role renv.itemEnvs items 0 ctr st []
          if k.aborted then ⟨k.st, k.tr, true, k.ctr⟩
          else
            let st2 : GState :=
              { k.st with
                UPLOADED_FILES_CACHE := dictSet k.st.UPLOADED_FILES_CACHE role k.role_files }
            ⟨st2, k.tr ++ [st2], false, k.ctr⟩

/-- The `for role in target_roles` loop under the outer `try`: an abort stops
the remaining roles (the `except` at line 150 catches the exception, logs it,
and falls through to the `return`). -/
def sync_roles : List (String × RoleEnv) → Nat → GState → GState × List GState
  | [], _, st => (st, [])
  | (role, renv) :: rest, ctr, st =>
    let r := process_role role renv ctr st
    if r.aborted then (r.st, r.tr)
    else
      let k := sync_roles rest r.ctr r.st
      (k.1, r.tr ++ k.2)

/-- Result of a whole sync pass: the final global state, the trace of every
published global state in order, and the Python return value — `None` when
credentials were unavailable, the pair of globals otherwise. -/
structure SyncResult where
  final : GState
  trace : List GState
  ret : Option (List (String × List UFile) × List DisplayEntry)
  deriving DecidableEq, Repr

/-- The whole of `load_and_upload_pdfs_by_role` (lines 61–153 of
`src/app.py`): when credentials are unavailable it returns `None` without
touching any global; otherwise it resets both published globals in place,
processes every role inside one `try/except`, and returns the (possibly
partially rebuilt) globals. -/
def load_and_upload_pdfs_by_role (env : SyncEnv) (st0 : GState) : SyncResult :=
  if env.credsOk then
    let st1 : GState := { st0 with UPLOADED_FILES_CACHE := resetCache, FILE_LIST_DATA := [] }
    let pairs := target_roles.mapIdx (fun i role => (role, env.roleEnvs.getD i defaultRoleEnv))
    let k := sync_roles pairs 0 st1
    ⟨k.1, st1 :: k.2, some (k.1.UPLOADED_FILES_CACHE, k.1.FILE_LIST_DATA)⟩
  else
    ⟨st0, [], none⟩

/-- One turn of the caller-supplied history (`chat['role']`, `chat['text']`). -/
structure Turn where
  role : String
  text : String
  deriving DecidableEq, Repr

/-- Rendering of one history turn: the label `"User"` when the turn's role is
`'user'`, else `"AI"`, then a colon, the text and a newline (line 203–205). -/
def renderTurn (t : Turn) : String :=
  (if t.role = "user" then "User" else "AI") ++ ": " ++ t.text ++ "\n"

/-- The history block built at lines 200–205: iterate over
`history_list[-4:]` — the last four turns; with truncated subtraction
`drop (length - 4)` is the whole list when it is shorter — appending one
rendered line per turn to an initially empty string. -/
def history_text (history_list : List Turn) : String :=
  (history_list.drop (history_list.length - 4)).foldl (fun acc t => acc ++ renderTurn t) ""

/-- Concatenation of the rendered turns of a history fragment, in order. -/
def renderLines : List Turn → String
  | [] => ""
  | t :: ts => renderTurn t ++ renderLines ts

/-- One element of the `request_content` list handed to
`model.generate_content`: a text part or an uploaded-file part. -/
inductive ReqPart where
  | text : String → ReqPart
  | file : UFile → ReqPart
  deriving DecidableEq, Repr

/-- The delimiter prepended to the user question (line 244). -/
def userQuestionHeader : String := "\n[ユーザーの質問]\n"

/-- The per-role persona fragment (lines 210–217); roles outside the three
known ones get the empty string. -/
def role_instruction (user_role : String) : String :=
  if user_role = "在学生" then
    "相手は【在学生】です。先輩や先生のような親しみやすい口調で、学校生活のルールや行事について詳しく答えてください。"
  else if user_role = "受験生" then
    "相手は【受験生】です。優しく歓迎するような口調で、入試情報や学校の魅力をアピールしてください。"
  else if user_role = "保護者" then
    "相手は【保護者】です。丁寧で信頼感のある「です・ます」調で、学費や就職実績、サポート体制について答えてください。"
  else ""

/-- The system prompt (lines 219–233): the fixed grounding rules with the
persona fragment interpolated, followed by the rendered history block. -/
def system_instruction (user_role : String) (htext : String) : String :=
  "\n    あなたは学校の公式質問応答システムです。\n    \n    【現在の設定】\n    "
    ++ role_instruction user_role
    ++ "\n    \n    【重要ルール】\n    1. 添付された資料(PDF)の内容のみを根拠に回答してください。\n    2. 資料内の「グラフ」「表」「地図」「写真」の情報も読み取って活用してください。\n    3. 推測や一般論を混ぜる場合は「資料にはありませんが…」と断りを入れてください。\n    4. 根拠とした資料名とページ数を明記してください。\n    \n    [これまでの会話]\n    "
    ++ htext

/-- Assembly of the request parts (lines 235–244): start from the system
instruction, extend with the role's cached files only when that list is
non-empty, then append the delimited user question. -/
def request_content (sys : String) (target_files : List UFile) (user_message : String) :
    List ReqPart :=
  let base := [ReqPart.text sys]
  let withFiles := if target_files.isEmpty then base else base ++ target_files.map ReqPart.file
  withFiles ++ [ReqPart.text (userQuestionHeader ++ user_message)]

/-- Outcome of `model.generate_content` followed by `response.text`: a
successful text, or one of the exception classes that reach the `except` at
line 254 — a content-safety rejection (`response.text` raises when the
candidate was blocked), a rate-limit error from the API, or any other
error. -/
inductive GenOutcome where
  | success : String → GenOutcome
  | safetyBlocked : GenOutcome
  | rateLimited : GenOutcome
  | otherError : GenOutcome
  deriving DecidableEq, Repr

/-- The JSON body of a chat response: a `reply` payload or an `error`
payload. -/
inductive Body where
  | reply : String → Body
  | error : String → Body
  deriving DecidableEq, Repr

/-- An HTTP response of the `/chat` endpoint: body and status code. -/
structure ChatResponse where
  body : Body
  status : Nat
  deriving DecidableEq, Repr

/-- Interpretation of the generation outcome (lines 246–256): success returns
the reply text with status 200; every exception — safety rejection, rate
limit, or anything else — reaches the single generic `except` clause and
yields the one fixed message with status 500. -/
def interpret_result (o : GenOutcome) : ChatResponse :=
  match o with
  | .success t => ⟨.reply t, 200⟩
  | _ => ⟨.reply "エラーが発生しました。", 500⟩

/-- One row appended by `save_log_to_sheet` (the wall-clock timestamp column
is outside the embedding). -/
structure LogRow where
  role : String
  user_msg : String
  bot_msg : String
  deriving DecidableEq, Repr

/-- The JSON body of a `/chat` request: `message` (absent when the key is
missing), `history`, and `role` (defaulted to 在学生 by `data.get`). -/
structure ChatRequest where
  message : Option String
  history : List Turn
  role : Option String
  deriving DecidableEq, Repr

/-- Result of one `/chat` call: the HTTP response, the cache after the call,
the parts sent to the generation service (`none` when it was never invoked),
and the log rows appended. -/
structure ChatResult where
  response : ChatResponse
  cache : List (String × List UFile)
  sentParts : Option (List ReqPart)
  logRows : List LogRow
  deriving DecidableEq, Repr

/-- The `/chat` handler (lines 190–256).  Python's `if not user_message` is
true exactly when the key is missing (`None`) or the string is empty, i.e.
when `req.message.getD "" = ""`.  The generation outcome is supplied by the
environment.  The handler never assigns the module globals, so the cache is
returned unchanged; a log row is appended only on success (logging failures
are swallowed inside `save_log_to_sheet` and never affect the response). -/
def chat (req : ChatRequest) (cache : List (String × List UFile)) (outcome : GenOutcome) :
    ChatResult :=
  let user_message := req.message.getD ""
  let user_role := req.role.getD "在学生"
  if user_message = "" then
    ⟨⟨.error "No message provided", 400⟩, cache, none, []⟩
  else
    let htext := history_text req.history
    let target_files := dictGet cache user_role
    let sys := system_instruction user_role htext
    let parts := request_content sys target_files user_message
    let rows : List LogRow :=
      match outcome with
      | .success t => [⟨user_role, user_message, t⟩]
      | _ => []
    ⟨interpret_result outcome, cache, some parts, rows⟩

/-- A sample store item. -/
def itemA : Item := ⟨"idA", "A.pdf", some "urlA"⟩

/-- A second sample store item. -/
def itemB : Item := ⟨"idB", "B.pdf", some "urlB"⟩

/-- A sample uploaded-file handle. -/
def ufA : UFile := ⟨"files/a", "A.pdf"⟩

/-- A second sample uploaded-file handle. -/
def ufB : UFile := ⟨"files/b", "B.pdf"⟩

/-- A previously published global state: one ready handle cached for 在学生,
one display entry, no staging files. -/
def prevState : GState :=
  ⟨[("在学生", [⟨"files/old", "Old.pdf"⟩]), ("受験生", []), ("保護者", [])],
   [⟨"【在学生】Old.pdf", "urlOld"⟩], []⟩

/-- Environment: credentials absent. -/
def envNoCreds : SyncEnv := ⟨false, []⟩

/-- Environment: credentials present; 在学生 has one PDF that uploads and
becomes ACTIVE; the other role folders are absent. -/
def envOkOne : SyncEnv :=
  ⟨true, [⟨.ok ["f1"], .ok [itemA], [⟨true, .ok ufA, .ACTIVE⟩]⟩]⟩

/-- Environment: the folder query for the first role raises (document store
unreachable before any role is processed). -/
def envStoreDown : SyncEnv := ⟨true, [⟨.exc, .ok [], []⟩]⟩

/-- Environment: credentials present, every query succeeds, zero documents
found (no role folder exists). -/
def envZeroDocs : SyncEnv := ⟨true, []⟩

/-- Environment: 在学生 has two PDFs; the download of the first raises; the
second would upload fine. -/
def envDownloadBoom : SyncEnv :=
  ⟨true, [⟨.ok ["f1"], .ok [itemA, itemB],
          [⟨false, .ok ufA, .ACTIVE⟩, ⟨true, .ok ufB, .ACTIVE⟩]⟩]⟩

/-- Environment: 在学生 has one PDF whose upload ends in state FAILED. -/
def envRejected : SyncEnv :=
  ⟨true, [⟨.ok ["f1"], .ok [itemA], [⟨true, .ok ufA, .FAILED⟩]⟩]⟩

/-- A sample readiness stream that leaves PROCESSING at index 2. -/
def sampleStates : Nat → FileState :=
  fun i => if i < 2 then .PROCESSING else .ACTIVE

theorem foldl_renderTurn (l : List Turn) :
    ∀ acc, l.foldl (fun a t => a ++ renderTurn t) acc = acc ++ renderLines l := by
  induction l with
  | nil => intro acc; simp [renderLines]
  | cons t ts ih =>
    intro acc
    simp only [List.foldl_cons, renderLines, ih, String.append_assoc]

/-- A sample non-empty chat request. -/
def reqSample : ChatRequest := ⟨some "こんにちは", [⟨"user", "前の質問"⟩], some "在学生"⟩

/-- A chat request whose `message` key is missing. -/
def reqEmpty : ChatRequest := ⟨none, [], none⟩

/-- Unfolding equation of `pollExit` on positive fuel. -/
theorem pollExit_succ (states : Nat → FileState) (fuel i : Nat) :
    pollExit states (fuel + 1) i =
      if states i ≠ .PROCESSING then some i else pollExit states fuel (i + 1) := rfl

/-- With fuel strictly larger than the distance to a non-PROCESSING state, the
polling loop exits at some index bounded by that distance. -/
theorem pollExit_finds (states : Nat → FileState) :
    ∀ k i, states (i + k) ≠ .PROCESSING →
      ∃ m, m ≤ i + k ∧ pollExit states (k + 1) i = some m := by
  intro k
  induction k with
  | zero =>
    intro i h
    rw [Nat.add_zero] at h
    exact ⟨i, Nat.le_refl i, by rw [pollExit_succ, if_pos h]⟩
  | succ k ih =>
    intro i h
    by_cases hp : states i = FileState.PROCESSING
    · have h' : states ((i + 1) + k) ≠ .PROCESSING := by
        have e : (i + 1) + k = i + (k + 1) := by omega
        rw [e]; exact h
      obtain ⟨m, hm, he⟩ := ih (i + 1) h'
      refine ⟨m, by omega, ?_⟩
      rw [pollExit_succ, if_neg (not_not_intro hp)]
      exact he
    · exact ⟨i, by omega, by rw [pollExit_succ, if_pos hp]⟩

/-- Claim C1 (amended): a sync pass does not publish atomically.  The first
state it publishes — observable by any concurrent reader of
`UPLOADED_FILES_CACHE` / `FILE_LIST_DATA` — is the in-place reset: the cache
with every role mapped to the empty list and an empty display list; role
lists are then published one by one as each role completes. -/
theorem C1_reset_state_published (env : SyncEnv) (st0 : GState) (h : env.credsOk = true) :
    (load_and_upload_pdfs_by_role env st0).trace.head? =
      some { st0 with UPLOADED_FILES_CACHE := resetCache, FILE_LIST_DATA := [] } := by
  simp [load_and_upload_pdfs_by_role, h]

/-- Witness for C1: the reset state is the first published state of a
concrete successful sync over a non-empty previous cache. -/
theorem C1_witness :
    envOkOne.credsOk = true ∧
      (load_and_upload_pdfs_by_role envOkOne prevState).trace.head? =
        some { prevState with UPLOADED_FILES_CACHE := resetCache, FILE_LIST_DATA := [] } :=
  ⟨rfl, C1_reset_state_published envOkOne prevState rfl⟩

/-- Counterexample to C1 as stated: during a concrete sync pass a published
state is observable whose cache is neither the complete previous snapshot nor
the complete new snapshot (it is the emptied cache of the in-place reset). -/
theorem C1_counterexample :
    ∃ s ∈ (load_and_upload_pdfs_by_role envOkOne prevState).trace,
      s.UPLOADED_FILES_CACHE ≠ prevState.UPLOADED_FILES_CACHE ∧
      s.UPLOADED_FILES_CACHE ≠
        (load_and_upload_pdfs_by_role envOkOne prevState).final.UPLOADED_FILES_CACHE := by
  decide

/-- Claim C2 (amended): when credentials are unavailable the sync returns
`None` — distinct from every successful return — and leaves the published
globals untouched. -/
theorem C2_no_creds_returns_none (env : SyncEnv) (st0 : GState) (h : env.credsOk = false) :
    load_and_upload_pdfs_by_role env st0 = ⟨st0, [], none⟩ := by
  simp [load_and_upload_pdfs_by_role, h]

/-- Witness for C2: the credentials-missing environment on a concrete
previous state. -/
theorem C2_witness :
    envNoCreds.credsOk = false ∧
      load_and_upload_pdfs_by_role envNoCreds prevState = ⟨prevState, [], none⟩ :=
  ⟨rfl, C2_no_creds_returns_none envNoCreds prevState rfl⟩

/-- Counterexample to C2 as stated: when the document store raises before any
role is processed, the previously published cache is not left unmodified (it
has been reset to empty lists), and the value returned to the caller is
identical to the success value returned when zero documents are found. -/
theorem C2_counterexample :
    (load_and_upload_pdfs_by_role envStoreDown prevState).final.UPLOADED_FILES_CACHE ≠
        prevState.UPLOADED_FILES_CACHE ∧
      (load_and_upload_pdfs_by_role envStoreDown prevState).ret =
        (load_and_upload_pdfs_by_role envZeroDocs prevState).ret := by
  decide

/-- Claim C3 (amended): the polling loop has no attempt ceiling; it
terminates exactly when the handle's state eventually leaves PROCESSING, and
then it exits at the first non-PROCESSING observation.  A handle whose state
never resolves makes the loop run forever (see the counterexample). -/
theorem C3_poll_exits_when_state_resolves (states : Nat → FileState) (n : Nat)
    (h : states n ≠ FileState.PROCESSING) :
    ∃ m, m ≤ n ∧ pollExit states (n + 1) 0 = some m := by
  have := pollExit_finds states n 0 (by rw [Nat.zero_add]; exact h)
  simpa using this

/-- Witness for C3: a stream that resolves at index 2 makes the loop exit
within three observations. -/
theorem C3_witness :
    sampleStates 2 ≠ FileState.PROCESSING ∧
      ∃ m, m ≤ 2 ∧ pollExit sampleStates (2 + 1) 0 = some m :=
  ⟨by decide, C3_poll_exits_when_state_resolves sampleStates 2 (by decide)⟩

/-- Counterexample to C3 as stated: the concrete input stream that stays
PROCESSING forever makes the polling loop run forever — no bounded attempt
ceiling exists in the code. -/
theorem C3_counterexample : pollLoopsForever (fun _ => FileState.PROCESSING) := by
  have key : ∀ fuel i, pollExit (fun _ => FileState.PROCESSING) fuel i = none := by
    intro fuel
    induction fuel with
    | zero => intro i; rfl
    | succ f ih =>
      intro i
      rw [pollExit_succ]
      simp [ih]
  intro fuel
  exact key fuel 0

/-- Claim C4 (amended): exceptions raised by a document's submission or
readiness handling are caught locally — the per-item iteration never aborts
the sync when the download succeeds, whatever the upload outcome — but an
exception raised by the download itself propagates (see the counterexample). -/
theorem C4_nondownload_errors_contained (role tmpName : String) (item : Item)
    (ienv : ItemEnv) (st : GState) (h : ienv.downloadOk = true) :
    (process_item role tmpName item ienv st).aborted = false := by
  simp [process_item, h]

/-- Witness for C4: a concrete item whose upload raises is contained — the
iteration does not abort the sync. -/
theorem C4_witness :
    (⟨true, .exc, .ACTIVE⟩ : ItemEnv).downloadOk = true ∧
      (process_item "在学生" "tmp0" itemA ⟨true, .exc, .ACTIVE⟩ prevState).aborted = false :=
  ⟨rfl, C4_nondownload_errors_contained "在学生" "tmp0" itemA ⟨true, .exc, .ACTIVE⟩ prevState rfl⟩

/-- Counterexample to C4 as stated: in `envDownloadBoom` the first document's
download raises while the sibling document B would ingest fine; yet after the
sync the display list holds only A's entry (B's iteration never ran) and the
role's cache entry was never assigned — the exception aborted the remaining
siblings and roles instead of being converted to a per-document failure. -/
theorem C4_counterexample :
    (load_and_upload_pdfs_by_role envDownloadBoom prevState).final.FILE_LIST_DATA =
        [⟨"【在学生】A.pdf", "urlA"⟩] ∧
      dictGet (load_and_upload_pdfs_by_role envDownloadBoom prevState).final.UPLOADED_FILES_CACHE
          "在学生" = [] := by
  decide

/-- Claim C5 (amended): the staging file is removed on every exit path of the
`try`/`finally` — success, rejected state, or an exception from the upload —
provided the download itself succeeded; a download exception instead leaks
the staging file (see the counterexample). -/
theorem C5_staging_removed_when_download_succeeds (role tmpName : String) (item : Item)
    (ienv : ItemEnv) (st : GState) (h : ienv.downloadOk = true)
    (hfresh : tmpName ∉ st.tempFiles) :
    (process_item role tmpName item ienv st).st.tempFiles = st.tempFiles := by
  have hall : ∀ a ∈ st.tempFiles, (a != tmpName) = true := by
    intro a ha
    simp only [bne_iff_ne, ne_eq]
    intro e
    exact hfresh (e ▸ ha)
  simp [process_item, h, List.filter_append, List.filter_eq_self.mpr hall]

/-- Witness for C5: a concrete successful ingestion leaves no staging file
behind. -/
theorem C5_witness :
    (⟨true, .ok ufA, .ACTIVE⟩ : ItemEnv).downloadOk = true ∧
      "tmp0" ∉ prevState.tempFiles ∧
      (process_item "在学生" "tmp0" itemA ⟨true, .ok ufA, .ACTIVE⟩ prevState).st.tempFiles =
        prevState.tempFiles :=
  ⟨rfl, by decide,
    C5_staging_removed_when_download_succeeds "在学生" "tmp0" itemA
      ⟨true, .ok ufA, .ACTIVE⟩ prevState rfl (by decide)⟩

/-- Counterexample to C5 as stated: in `envDownloadBoom` the download of the
first document raises inside the `with` block, before the `try`/`finally`
that removes the staging file is entered; the sync pass returns with the
staging file `tmp0` still on disk. -/
theorem C5_counterexample :
    (load_and_upload_pdfs_by_role envDownloadBoom prevState).final.tempFiles = ["tmp0"] := by
  decide

/-- Claim C6 (amended): a document whose upload does not reach state ACTIVE —
it is rejected (FAILED) — contributes no handle, so it can never enter the
role's cached list; its display entry, however, is appended before ingestion
and is not marked differently from a ready document's (see the
counterexample).  The code has no timeout path: polling is unbounded. -/
theorem C6_nonactive_handle_discarded (role tmpName : String) (item : Item)
    (ienv : ItemEnv) (st : GState) (h : ienv.finalState ≠ FileState.ACTIVE) :
    (process_item role tmpName item ienv st).handle = none := by
  cases hd : ienv.downloadOk with
  | false => simp [process_item, hd]
  | true =>
    cases hu : ienv.upload with
    | exc => simp [process_item, hd, hu]
    | ok uf => simp [process_item, hd, hu, h]

/-- Witness for C6: a concrete rejected upload yields no handle. -/
theorem C6_witness :
    (⟨true, .ok ufA, .FAILED⟩ : ItemEnv).finalState ≠ FileState.ACTIVE ∧
      (process_item "在学生" "tmp0" itemA ⟨true, .ok ufA, .FAILED⟩ prevState).handle = none :=
  ⟨by decide,
    C6_nonactive_handle_discarded "在学生" "tmp0" itemA ⟨true, .ok ufA, .FAILED⟩ prevState
      (by decide)⟩

/-- Counterexample to C6 as stated: the same document run through a rejecting
environment and a succeeding one produces the identical display list — the
entry of the rejected document carries no distinct marking — while the caches
differ (the rejected run cached nothing). -/
theorem C6_counterexample :
    (load_and_upload_pdfs_by_role envRejected prevState).final.FILE_LIST_DATA =
        (load_and_upload_pdfs_by_role envOkOne prevState).final.FILE_LIST_DATA ∧
      (load_and_upload_pdfs_by_role envRejected prevState).final.UPLOADED_FILES_CACHE ≠
        (load_and_upload_pdfs_by_role envOkOne prevState).final.UPLOADED_FILES_CACHE := by
  decide

/-- Claim C7 (confirmed): the rendered history block is exactly the
concatenation of the rendered last `min 4 M` turns: the turns rendered are a
suffix of the supplied history (so chronological order is preserved), of
length 4 when the history is longer than 4 and of length M otherwise, each
rendered as one labeled line by `renderTurn`. -/
theorem C7_history_last_four_in_order (hs : List Turn) :
    history_text hs = renderLines (hs.drop (hs.length - 4)) ∧
      (hs.drop (hs.length - 4)).length = min 4 hs.length ∧
      hs.take (hs.length - 4) ++ hs.drop (hs.length - 4) = hs := by
  refine ⟨?_, ?_, List.take_append_drop _ _⟩
  · show (hs.drop (hs.length - 4)).foldl (fun acc t => acc ++ renderTurn t) "" = _
    rw [foldl_renderTurn, String.empty_append]
  · rw [List.length_drop]
    omega

/-- Claim C8 (confirmed): for every chat call that reaches assembly, the
parts sent to the generation service are exactly the system instruction
first, then one file part per handle cached for the resolved role in the
cache's stored order, then the user question last, prefixed by the question
delimiter. -/
theorem C8_parts_order (req : ChatRequest) (cache : List (String × List UFile))
    (outcome : GenOutcome) (h : ¬ req.message.getD "" = "") :
    (chat req cache outcome).sentParts =
      some (ReqPart.text (system_instruction (req.role.getD "在学生")
            (history_text req.history)) ::
          ((dictGet cache (req.role.getD "在学生")).map ReqPart.file ++
            [ReqPart.text (userQuestionHeader ++ req.message.getD "")])) := by
  cases he : (dictGet cache (req.role.getD "在学生")).isEmpty with
  | true =>
    have hnil := List.isEmpty_iff.mp he
    simp [chat, h, request_content, hnil]
  | false =>
    simp [chat, h, request_content, he]

/-- Witness for C8: a concrete chat call over the sample cache. -/
theorem C8_witness :
    ¬ reqSample.message.getD "" = "" ∧
      (chat reqSample prevState.UPLOADED_FILES_CACHE (GenOutcome.success "返答")).sentParts =
        some (ReqPart.text (system_instruction (reqSample.role.getD "在学生")
              (history_text reqSample.history)) ::
            ((dictGet prevState.UPLOADED_FILES_CACHE (reqSample.role.getD "在学生")).map
                ReqPart.file ++
              [ReqPart.text (userQuestionHeader ++ reqSample.message.getD "")])) :=
  ⟨by decide,
    C8_parts_order reqSample prevState.UPLOADED_FILES_CACHE (GenOutcome.success "返答")
      (by decide)⟩

/-- Claim C9 (amended): every failing generation outcome — content-safety
rejection, rate limiting, or any other error — reaches the one generic
`except` clause and yields the single fixed fallback reply with status 500;
the three failure kinds are not distinguishable in the response. -/
theorem C9_single_fallback_for_all_failures (o : GenOutcome)
    (h : ∀ t, o ≠ GenOutcome.success t) :
    interpret_result o = ⟨Body.reply "エラーが発生しました。", 500⟩ := by
  cases o with
  | success t => exact absurd rfl (h t)
  | safetyBlocked => rfl
  | rateLimited => rfl
  | otherError => rfl

/-- Witness for C9: the safety-blocked outcome yields the generic fallback. -/
theorem C9_witness :
    (∀ t, GenOutcome.safetyBlocked ≠ GenOutcome.success t) ∧
      interpret_result GenOutcome.safetyBlocked = ⟨Body.reply "エラーが発生しました。", 500⟩ :=
  ⟨fun _ h => GenOutcome.noConfusion h,
    C9_single_fallback_for_all_failures GenOutcome.safetyBlocked
      (fun _ h => GenOutcome.noConfusion h)⟩

/-- Counterexample to C9 as stated: the safety rejection, the rate-limit
failure and any other failure produce identical responses — they are not
mutually distinguishable, and no distinct fixed fallback messages exist. -/
theorem C9_counterexample :
    interpret_result GenOutcome.safetyBlocked = interpret_result GenOutcome.rateLimited ∧
      interpret_result GenOutcome.rateLimited = interpret_result GenOutcome.otherError :=
  ⟨rfl, rfl⟩

/-- Claim C10 (confirmed): a chat request whose message is missing or empty
is answered with the 400 error response, the generation service is never
invoked, no log row is appended, and the cache is unchanged. -/
theorem C10_empty_message_rejected_without_side_effects (req : ChatRequest)
    (cache : List (String × List UFile)) (outcome : GenOutcome)
    (h : req.message.getD "" = "") :
    chat req cache outcome = ⟨⟨Body.error "No message provided", 400⟩, cache, none, []⟩ := by
  simp [chat, h]

/-- Witness for C10: the concrete request with no message key. -/
theorem C10_witness :
    reqEmpty.message.getD "" = "" ∧
      chat reqEmpty prevState.UPLOADED_FILES_CACHE GenOutcome.otherError =
        ⟨⟨Body.error "No message provided", 400⟩, prevState.UPLOADED_FILES_CACHE, none, []⟩ :=
  ⟨rfl,
    C10_empty_message_rejected_without_side_effects reqEmpty
      prevState.UPLOADED_FILES_CACHE GenOutcome.otherError rfl⟩
